import Mathlib

/-!
Shallow embedding of `src/canboot_main.c` (katapult/CanBoot bootloader main
loop): the flash page buffer, the write-state tracker, the command handlers
(connect, read-block, write-block, end-of-file, complete) and the boot-mode
decision.  Machine integers are modelled as `Nat` with explicit `% 2^32`
where 32-bit unsigned wraparound matters; flash memory is a byte-addressed
function `Nat → Nat`; calls into the external flash driver are recorded as
an explicit list of `FlashOp` events.
-/

namespace Canboot

/-- The erased-flash fill byte (`0xFF`), used by `memset` in `write_page`. -/
def FILL : Nat := 0xFF

/-- `REQUEST_SIG` from canboot_main.c: the persisted bootloader-request magic. -/
def REQUEST_SIG : Nat := 0x5984E3FA6CA1589B

/-- `2^32`: modulus of the `uint32_t` arithmetic in the source. -/
def U32 : Nat := 2 ^ 32

/-- Build-time configuration constants of the source (`CONFIG_APPLICATION_START`,
`CONFIG_BLOCK_SIZE`, the flash page size returned by `flash_get_page_size`,
`PROTO_VERSION`, `CONFIG_ENABLE_BUTTON`, `CONFIG_ENABLE_DOUBLE_RESET`). -/
structure Cfg where
  appStart : Nat
  blockSize : Nat
  pageSize : Nat
  protoVersion : Nat
  enableButton : Bool
  enableDoubleReset : Bool
deriving Repr, DecidableEq

/-- The mutable state of canboot_main.c: the byte-addressed flash contents
(behind the external flash driver), `page_buffer`, `last_page_address`,
`page_pending`, `is_in_transfer` and `complete`. -/
structure St where
  flash : Nat → Nat
  pageBuffer : List Nat
  lastPageAddress : Nat
  pagePending : Bool
  isInTransfer : Bool
  completeFlag : Bool

/-- Calls made into the external flash driver: `flash_write_page` and
`flash_complete`. -/
inductive FlashOp where
  | writePage (address : Nat) (page : List Nat)
  | finalize
deriving Repr, DecidableEq

/-- The acknowledgement each handler hands to `command_respond_ack`, or the
error acknowledgement from `command_respond_command_error`. -/
inductive Ack where
  | ackConnect (protoVersion appStart blockSize : Nat)
  | ackReqBlock (address : Nat) (data : List Nat)
  | ackRxBlock (address : Nat)
  | ackRxEof (pageCount : Nat)
  | ackComplete
  | cmdError
deriving Repr, DecidableEq

/-- `memcpy(&buf[pos], data, n)` into a buffer modelled as a list: byte `i`
of the result is `data[i - pos]` when `pos ≤ i < pos + n`, otherwise byte `i`
of `buf`.  Bytes that the C `memcpy` would place at offsets beyond the
committed page region (`i ≥ buf.length`) are outside the model's buffer and
are dropped; they are never read back by `flash_write_page`. -/
def stageBlock (buf : List Nat) (pos n : Nat) (data : List Nat) : List Nat :=
  (List.range buf.length).map
    (fun i => if pos ≤ i ∧ i < pos + n then data.getD (i - pos) 0 else buf.getD i 0)

/-- The effect of `flash_write_page(pageAddress, page_buffer)` on flash
contents: bytes `[pageAddress, pageAddress + pageSize)` now read back from the
committed page. -/
def writePageFlash (flash : Nat → Nat) (pageAddress : Nat) (page : List Nat)
    (pageSize : Nat) : Nat → Nat :=
  fun a =>
    if pageAddress ≤ a ∧ a < pageAddress + pageSize then page.getD (a - pageAddress) FILL
    else flash a

/-- `write_page` (canboot_main.c:34-41): program the buffer to flash at
`pageAddress`, `memset` the whole buffer back to `0xFF`, record
`last_page_address = pageAddress`, clear `page_pending`.  Callers pass a
`uint32_t`, already reduced mod `2^32`. -/
def write_page (cfg : Cfg) (s : St) (pageAddress : Nat) : St × FlashOp :=
  let page := s.pageBuffer.take cfg.pageSize
  ({ s with
      flash := writePageFlash s.flash pageAddress page cfg.pageSize
      pageBuffer := List.replicate s.pageBuffer.length FILL
      lastPageAddress := pageAddress
      pagePending := false },
   FlashOp.writePage pageAddress page)

/-- `flash_read_block(address, out)`: one block of `CONFIG_BLOCK_SIZE` bytes
read straight from flash. -/
def flash_read_block (cfg : Cfg) (flash : Nat → Nat) (address : Nat) : List Nat :=
  (List.range cfg.blockSize).map (fun i => flash (address + i))

/-- `command_read_block` (canboot_main.c:43-52): set `is_in_transfer`, read the
block from flash (bypassing the page buffer) and acknowledge with the echoed
address and the raw contents. -/
def command_read_block (cfg : Cfg) (s : St) (address : Nat) : St × Ack :=
  ({ s with isInTransfer := true },
   Ack.ackReqBlock address (flash_read_block cfg s.flash address))

/-- A decoded write-block request frame: the argument count reported by
`command_get_arg_count`, the `uint32_t` block address from `data[1]` and the
payload bytes starting at `data[2]`. -/
structure WBReq where
  argCount : Nat
  address : Nat
  payload : List Nat
deriving Repr, DecidableEq

/-- `command_write_block` (canboot_main.c:54-76): set `is_in_transfer`; reject
a wrong argument count, then an address below `CONFIG_APPLICATION_START`, with
a command error; otherwise stage the block into the page buffer at
`address % page_size`, set `page_pending`, commit the page at
`address - page_pos` exactly when the write reaches the page boundary, and
acknowledge with the echoed address.  The result is the new state, the flash
driver calls made, and the acknowledgement. -/
def command_write_block (cfg : Cfg) (s : St) (req : WBReq) : St × List FlashOp × Ack :=
  let s1 := { s with isInTransfer := true }
  if req.argCount ≠ cfg.blockSize / 4 + 1 then
    (s1, [], Ack.cmdError)
  else if req.address < cfg.appStart then
    (s1, [], Ack.cmdError)
  else
    let pagePos := req.address % cfg.pageSize
    let s2 := { s1 with
      pageBuffer := stageBlock s1.pageBuffer pagePos cfg.blockSize req.payload
      pagePending := true }
    if pagePos + cfg.blockSize = cfg.pageSize then
      let r := write_page cfg s2 (req.address - pagePos)
      (r.1, [r.2], Ack.ackRxBlock req.address)
    else
      (s2, [], Ack.ackRxBlock req.address)

/-- Whether `command_write_block` accepts the request (does not answer with
the command error). -/
def wbAccepted (cfg : Cfg) (s : St) (req : WBReq) : Bool :=
  (command_write_block cfg s req).2.2 != Ack.cmdError

/-- `command_eof` (canboot_main.c:78-92): clear `is_in_transfer`; if a page is
pending, commit it at `last_page_address + page_size` (`uint32_t` addition);
call `flash_complete`; acknowledge with
`(last_page_address - CONFIG_APPLICATION_START) / page_size + 1` in exact
32-bit unsigned arithmetic. -/
def command_eof (cfg : Cfg) (s : St) : St × List FlashOp × Ack :=
  let s1 := { s with isInTransfer := false }
  let fp :=
    if s1.pagePending then
      let r := write_page cfg s1 ((s1.lastPageAddress + cfg.pageSize) % U32)
      (r.1, [r.2])
    else (s1, ([] : List FlashOp))
  let s2 := fp.1
  let count :=
    (((U32 + s2.lastPageAddress - cfg.appStart) % U32) / cfg.pageSize + 1) % U32
  (s2, fp.2 ++ [FlashOp.finalize], Ack.ackRxEof count)

/-- The value `last_page_address` holds once `command_eof` has flushed any
pending page: the flush target `last_page_address + page_size` when a page was
pending, otherwise `last_page_address` itself. -/
def eofFinalAddress (cfg : Cfg) (s : St) : Nat :=
  if s.pagePending then (s.lastPageAddress + cfg.pageSize) % U32 else s.lastPageAddress

/-- `command_complete` (canboot_main.c:94-100): acknowledge, then set
`complete`. -/
def command_complete (s : St) : St × Ack :=
  ({ s with completeFlag := true }, Ack.ackComplete)

/-- `command_connect` (canboot_main.c:102-113): pure information response;
no state change. -/
def command_connect (cfg : Cfg) (s : St) : St × Ack :=
  (s, Ack.ackConnect cfg.protoVersion cfg.appStart cfg.blockSize)

/-- `check_application_code` (canboot_main.c:115-126): read the first
application block from flash into `page_buffer` (a side effect on the buffer),
and report whether any byte differs from `0xFF`.  The source loop counter is
8-bit, so `CONFIG_BLOCK_SIZE` is at most 255 in any buildable configuration. -/
def check_application_code (cfg : Cfg) (s : St) : St × Bool :=
  let firstBlock := flash_read_block cfg s.flash cfg.appStart
  ({ s with pageBuffer := stageBlock s.pageBuffer 0 cfg.blockSize firstBlock },
   firstBlock.any (fun b => b != FILL))

/-- The inputs the boot decision samples from outside: the persisted bootup
code register and whether the button reads at its configured active level. -/
structure BootEnv where
  bootupCode : Nat
  buttonPressed : Bool
deriving Repr, DecidableEq

/-- `check_button_pressed` (canboot_main.c:133-141): false when
`CONFIG_ENABLE_BUTTON` is off, otherwise the sampled level comparison. -/
def check_button_pressed (cfg : Cfg) (env : BootEnv) : Bool :=
  cfg.enableButton && env.buttonPressed

/-- Outcome of the boot decision in `canboot_main`: whether update mode is
entered, the value the persistent bootup register holds afterwards, and the
state (the application-code check writes into `page_buffer`). -/
structure BootResult where
  enterUpdateMode : Bool
  bootupCodeAfter : Nat
  st : St

/-- The boot decision of `canboot_main` (canboot_main.c:179-195): enter update
mode when the persisted code equals `REQUEST_SIG` (short-circuiting the
application check), or when no application code is present, or when the button
is pressed; on entry clear the code.  On the run-application path,
`check_double_reset` transiently sets and then clears the code when enabled. -/
def boot_decision (cfg : Cfg) (env : BootEnv) (s : St) : BootResult :=
  if env.bootupCode = REQUEST_SIG then
    { enterUpdateMode := true, bootupCodeAfter := 0, st := s }
  else
    let r := check_application_code cfg s
    if !r.2 || check_button_pressed cfg env then
      { enterUpdateMode := true, bootupCodeAfter := 0, st := r.1 }
    else
      { enterUpdateMode := false
        bootupCodeAfter := if cfg.enableDoubleReset then 0 else env.bootupCode
        st := r.1 }

/-- The state at firmware startup: C statics are zero-initialised, so the page
buffer (sized `CONFIG_MAX_FLASH_PAGE_SIZE`, here `bufLen`) is all zero,
`last_page_address = 0` and all flags are clear. -/
def initSt (flash : Nat → Nat) (bufLen : Nat) : St :=
  { flash := flash
    pageBuffer := List.replicate bufLen 0
    lastPageAddress := 0
    pagePending := false
    isInTransfer := false
    completeFlag := false }

end Canboot

namespace Canboot

/-! ### Concrete configurations and states used by the scenario claims -/

/-- The configuration of the spec's scenarios: application start `0x8000`,
block size 64, page size 256. -/
def cfg0 : Cfg :=
  { appStart := 0x8000, blockSize := 64, pageSize := 256, protoVersion := 0,
    enableButton := false, enableDoubleReset := false }

/-- Startup state with an all-zero flash model and a 256-byte page buffer. -/
def st0 : St := initSt (fun _ => 0) 256

/-- A valid write-block request at `0x8000` carrying 64 bytes of `0xAB`. -/
def reqA : WBReq := { argCount := 17, address := 0x8000, payload := List.replicate 64 0xAB }

/-- The state after one `command_write_block` call. -/
def wbState (cfg : Cfg) (s : St) (r : WBReq) : St :=
  (command_write_block cfg s r).1

/-- The flash driver calls made by one `command_write_block` call. -/
def wbOps (cfg : Cfg) (s : St) (r : WBReq) : List FlashOp :=
  (command_write_block cfg s r).2.1

/-- Flash contents with an application installed: its first block (64 bytes
from `0x8000`) reads `0x42`, the rest of flash reads `0xEE`. -/
def fA : Nat → Nat := fun a => if 0x8000 ≤ a ∧ a < 0x8040 then 0x42 else 0xEE

/-- The scenario configuration with the boot button enabled. -/
def cfgB : Cfg := { cfg0 with enableButton := true }

/-- Boot environment: no persisted request signal, button held down. -/
def envB : BootEnv := { bootupCode := 0, buttonPressed := true }

/-- A state whose last committed page is `0x8000` with nothing pending. -/
def stW : St := { st0 with lastPageAddress := 0x8000 }

/-- Boot environment in which the application requested a reflash: the
persisted code equals `REQUEST_SIG`. -/
def envSig : BootEnv := { bootupCode := REQUEST_SIG, buttonPressed := false }

/-- Startup state over fully erased flash (every byte reads the fill value). -/
def stFF : St := initSt (fun _ => FILL) 256

/-- A valid write-block request at `0x80C0` (offset 192, the last block of its
page) carrying 64 bytes of `5`. -/
def reqC : WBReq := { argCount := 17, address := 0x80C0, payload := List.replicate 64 5 }

/-! ### Pointwise and structural facts about the staging `memcpy` -/

theorem stageBlock_length (buf : List Nat) (pos n : Nat) (data : List Nat) :
    (stageBlock buf pos n data).length = buf.length := by
  simp [stageBlock]

theorem stageBlock_getElem (buf : List Nat) (pos n : Nat) (data : List Nat)
    (i : Nat) (h : i < (stageBlock buf pos n data).length) :
    (stageBlock buf pos n data)[i] =
      if pos ≤ i ∧ i < pos + n then data.getD (i - pos) 0 else buf.getD i 0 := by
  simp [stageBlock]

theorem stageBlock_eq_append (buf data : List Nat) (pos n : Nat)
    (hpn : pos + n ≤ buf.length) (hd : data.length = n) :
    stageBlock buf pos n data = buf.take pos ++ data ++ buf.drop (pos + n) := by
  have hlen : (buf.take pos ++ data).length = pos + n := by
    simp [List.length_append, List.length_take]
    omega
  apply List.ext_getElem
  · simp [stageBlock_length, List.length_take]
    omega
  · intro i h1 h2
    rw [stageBlock_getElem]
    have hlt : i < buf.length := by
      rw [stageBlock_length] at h1; exact h1
    by_cases hlo : pos ≤ i
    · by_cases hhi : i < pos + n
      · rw [if_pos ⟨hlo, hhi⟩]
        rw [List.getElem_append_left (by omega)]
        rw [List.getElem_append_right (by simp [List.length_take]; omega)]
        rw [List.getD_eq_getElem]
        · congr 1
          simp only [List.length_take]
          omega
        · omega
      · rw [if_neg (by omega), List.getD_eq_getElem _ _ hlt]
        rw [List.getElem_append_right (by omega)]
        rw [List.getElem_drop]
        congr 1
        rw [hlen]
        omega
    · rw [if_neg (by omega), List.getD_eq_getElem _ _ hlt]
      rw [List.getElem_append_left (by omega)]
      rw [List.getElem_append_left (by simp [List.length_take]; omega)]
      rw [List.getElem_take]

theorem stageBlock_append_block (pre suf data : List Nat) (pos n : Nat)
    (hpre : pre.length = pos) (hd : data.length = n) (hn : n ≤ suf.length) :
    stageBlock (pre ++ suf) pos n data = pre ++ data ++ suf.drop n := by
  subst hpre
  rw [stageBlock_eq_append _ _ _ _ (by simp; omega) hd, List.take_left, List.drop_append]

/-! ### Shape of `command_write_block` on accepted requests -/

theorem command_write_block_stage (cfg : Cfg) (s : St) (req : WBReq)
    (ha : req.argCount = cfg.blockSize / 4 + 1)
    (hb : cfg.appStart ≤ req.address)
    (hne : req.address % cfg.pageSize + cfg.blockSize ≠ cfg.pageSize) :
    command_write_block cfg s req =
      ({ s with isInTransfer := true
                pageBuffer := stageBlock s.pageBuffer (req.address % cfg.pageSize)
                  cfg.blockSize req.payload
                pagePending := true },
       [], Ack.ackRxBlock req.address) := by
  simp only [command_write_block]
  rw [if_neg (fun h => h ha), if_neg (by omega), if_neg hne]

theorem command_write_block_commit (cfg : Cfg) (s : St) (req : WBReq)
    (ha : req.argCount = cfg.blockSize / 4 + 1)
    (hb : cfg.appStart ≤ req.address)
    (heq : req.address % cfg.pageSize + cfg.blockSize = cfg.pageSize) :
    command_write_block cfg s req =
      ({ s with isInTransfer := true
                pageBuffer := List.replicate s.pageBuffer.length FILL
                pagePending := false
                lastPageAddress := req.address - req.address % cfg.pageSize
                flash := writePageFlash s.flash (req.address - req.address % cfg.pageSize)
                  ((stageBlock s.pageBuffer (req.address % cfg.pageSize) cfg.blockSize
                    req.payload).take cfg.pageSize) cfg.pageSize },
       [FlashOp.writePage (req.address - req.address % cfg.pageSize)
          ((stageBlock s.pageBuffer (req.address % cfg.pageSize) cfg.blockSize
            req.payload).take cfg.pageSize)],
       Ack.ackRxBlock req.address) := by
  simp only [command_write_block]
  rw [if_neg (fun h => h ha), if_neg (by omega), if_pos heq]
  simp only [write_page, stageBlock_length]

end Canboot

namespace Canboot

/-! ### C2: staging bound under the handler's validation -/

/-- Claim C2, counterexample: the request at address `0x80D0` passes both
validation checks of `command_write_block` (argument count `17 = 64/4 + 1`,
address at least `0x8000`) yet its staging offset `0x80D0 % 256 = 208`
violates `offset + block_size ≤ page_size` (`208 + 64 = 272 > 256`), so the
claimed bound does not follow from the handler's validation alone. -/
theorem wb_validation_allows_cross_page_write :
    wbAccepted cfg0 st0 { argCount := 17, address := 0x80D0, payload := List.replicate 64 7 } = true
      ∧ ¬ ((0x80D0 : Nat) % cfg0.pageSize + cfg0.blockSize ≤ cfg0.pageSize) := by
  decide

/-- Claim C2, amended: for every write-block request that passes the handler's
validation and whose address is block-aligned, with the block size dividing
the page size, the staging copy satisfies
`offset + block_size ≤ page_size` where `offset = address mod page_size`, so
the `memcpy` stays within the page. -/
theorem wb_aligned_staging_within_page (cfg : Cfg) (s : St) (req : WBReq)
    (hacc : wbAccepted cfg s req = true)
    (halign : cfg.blockSize ∣ req.address)
    (hdiv : cfg.blockSize ∣ cfg.pageSize)
    (hpos : 0 < cfg.pageSize) :
    req.address % cfg.pageSize + cfg.blockSize ≤ cfg.pageSize := by
  have hB : 0 < cfg.blockSize := by
    rcases Nat.eq_zero_or_pos cfg.blockSize with h0 | h
    · rw [h0] at hdiv
      omega
    · exact h
  have hoff : cfg.blockSize ∣ req.address % cfg.pageSize :=
    (Nat.dvd_mod_iff hdiv).2 halign
  have hlt : req.address % cfg.pageSize < cfg.pageSize := Nat.mod_lt _ hpos
  have hsub : cfg.blockSize ∣ cfg.pageSize - req.address % cfg.pageSize :=
    Nat.dvd_sub' hdiv hoff
  have hle : cfg.blockSize ≤ cfg.pageSize - req.address % cfg.pageSize :=
    Nat.le_of_dvd (by omega) hsub
  omega

/-- Closed witness for `wb_aligned_staging_within_page` at the request
`reqA` over `cfg0` and `st0`. -/
theorem wb_aligned_staging_within_page_witness :
    reqA.address % cfg0.pageSize + cfg0.blockSize ≤ cfg0.pageSize :=
  wb_aligned_staging_within_page cfg0 st0 reqA (by decide) (by decide) (by decide) (by decide)

/-! ### C3 and C4: rejected requests -/

/-- Claim C3, counterexample: a write-block request with a wrong argument
count is rejected with the command error, yet the handler has already set
`is_in_transfer`, so the transfer flag changes from `false` to `true` —
the rejected call does not leave all listed state unchanged. -/
theorem invalid_write_still_sets_transfer_flag :
    (command_write_block cfg0 st0 { argCount := 0, address := 0, payload := [] }).2.2
        = Ack.cmdError
      ∧ st0.isInTransfer = false
      ∧ (command_write_block cfg0 st0
          { argCount := 0, address := 0, payload := [] }).1.isInTransfer = true := by
  decide

/-- Claim C3, amended: for every invalid write-block request (wrong argument
count or address below `application_start`) the handler emits the error
acknowledgement, performs no flash call, and leaves `page_buffer`,
`last_page_address`, `page_pending`, the completion flag and the flash
contents unchanged; the transfer flag, however, is set to `true`
unconditionally before validation, so it is unchanged only when it was
already set. -/
theorem invalid_write_only_transfer_flag_changes (cfg : Cfg) (s : St) (req : WBReq)
    (h : req.argCount ≠ cfg.blockSize / 4 + 1 ∨ req.address < cfg.appStart) :
    (command_write_block cfg s req).2.2 = Ack.cmdError
      ∧ (command_write_block cfg s req).2.1 = []
      ∧ (command_write_block cfg s req).1.pageBuffer = s.pageBuffer
      ∧ (command_write_block cfg s req).1.lastPageAddress = s.lastPageAddress
      ∧ (command_write_block cfg s req).1.pagePending = s.pagePending
      ∧ (command_write_block cfg s req).1.completeFlag = s.completeFlag
      ∧ (command_write_block cfg s req).1.flash = s.flash
      ∧ (command_write_block cfg s req).1.isInTransfer = true := by
  rcases h with h | h
  · simp [command_write_block, h]
  · by_cases h2 : req.argCount = cfg.blockSize / 4 + 1
    · simp [command_write_block, h2, h]
    · simp [command_write_block, h2]

/-- Closed witness for `invalid_write_only_transfer_flag_changes` at a
request whose address `0` lies below `cfg0.appStart`. -/
theorem invalid_write_only_transfer_flag_changes_witness :
    (command_write_block cfg0 st0 { argCount := 17, address := 0, payload := [] }).2.2
        = Ack.cmdError
      ∧ (command_write_block cfg0 st0 { argCount := 17, address := 0, payload := [] }).2.1 = []
      ∧ (command_write_block cfg0 st0
          { argCount := 17, address := 0, payload := [] }).1.pageBuffer = st0.pageBuffer
      ∧ (command_write_block cfg0 st0
          { argCount := 17, address := 0, payload := [] }).1.lastPageAddress = st0.lastPageAddress
      ∧ (command_write_block cfg0 st0
          { argCount := 17, address := 0, payload := [] }).1.pagePending = st0.pagePending
      ∧ (command_write_block cfg0 st0
          { argCount := 17, address := 0, payload := [] }).1.completeFlag = st0.completeFlag
      ∧ (command_write_block cfg0 st0
          { argCount := 17, address := 0, payload := [] }).1.flash = st0.flash
      ∧ (command_write_block cfg0 st0
          { argCount := 17, address := 0, payload := [] }).1.isInTransfer = true :=
  invalid_write_only_transfer_flag_changes cfg0 st0
    { argCount := 17, address := 0, payload := [] } (Or.inr (by decide))

/-- Claim C4: every write-block request with an address below
`application_start` or a wrong argument count is answered with the error
acknowledgement, performs no flash driver call, and leaves
`last_page_address`, `page_pending` and `page_buffer` exactly as they were —
no payload byte reaches the page buffer. -/
theorem invalid_write_error_ack_no_write (cfg : Cfg) (s : St) (req : WBReq)
    (h : req.address < cfg.appStart ∨ req.argCount ≠ cfg.blockSize / 4 + 1) :
    (command_write_block cfg s req).2.2 = Ack.cmdError
      ∧ (command_write_block cfg s req).1.pageBuffer = s.pageBuffer
      ∧ (command_write_block cfg s req).1.lastPageAddress = s.lastPageAddress
      ∧ (command_write_block cfg s req).1.pagePending = s.pagePending
      ∧ (command_write_block cfg s req).2.1 = [] := by
  rcases h with h | h
  · by_cases h2 : req.argCount = cfg.blockSize / 4 + 1
    · simp [command_write_block, h2, h]
    · simp [command_write_block, h2]
  · simp [command_write_block, h]

/-- Closed witness for `invalid_write_error_ack_no_write` at a request with
a wrong argument count. -/
theorem invalid_write_error_ack_no_write_witness :
    (command_write_block cfg0 st0 { argCount := 3, address := 0x8000, payload := [] }).2.2
        = Ack.cmdError
      ∧ (command_write_block cfg0 st0
          { argCount := 3, address := 0x8000, payload := [] }).1.pageBuffer = st0.pageBuffer
      ∧ (command_write_block cfg0 st0
          { argCount := 3, address := 0x8000, payload := [] }).1.lastPageAddress
            = st0.lastPageAddress
      ∧ (command_write_block cfg0 st0
          { argCount := 3, address := 0x8000, payload := [] }).1.pagePending = st0.pagePending
      ∧ (command_write_block cfg0 st0
          { argCount := 3, address := 0x8000, payload := [] }).2.1 = [] :=
  invalid_write_error_ack_no_write cfg0 st0
    { argCount := 3, address := 0x8000, payload := [] } (Or.inr (by decide))

end Canboot

namespace Canboot

theorem cwb_stage_fields (cfg : Cfg) (fl : Nat → Nat) (buf : List Nat) (lpa : Nat)
    (pp t c : Bool) (ac ad : Nat) (pl : List Nat)
    (ha : ac = cfg.blockSize / 4 + 1) (hb : cfg.appStart ≤ ad)
    (hne : ad % cfg.pageSize + cfg.blockSize ≠ cfg.pageSize) :
    command_write_block cfg ⟨fl, buf, lpa, pp, t, c⟩ ⟨ac, ad, pl⟩ =
      (⟨fl, stageBlock buf (ad % cfg.pageSize) cfg.blockSize pl, lpa, true, true, c⟩,
       [], Ack.ackRxBlock ad) := by
  simp only [command_write_block]
  rw [if_neg (fun h => h ha), if_neg (by omega), if_neg hne]

theorem wbState_stage_fields (cfg : Cfg) (fl : Nat → Nat) (buf : List Nat) (lpa : Nat)
    (pp t c : Bool) (ac ad : Nat) (pl : List Nat)
    (ha : ac = cfg.blockSize / 4 + 1) (hb : cfg.appStart ≤ ad)
    (hne : ad % cfg.pageSize + cfg.blockSize ≠ cfg.pageSize) :
    wbState cfg ⟨fl, buf, lpa, pp, t, c⟩ ⟨ac, ad, pl⟩ =
      ⟨fl, stageBlock buf (ad % cfg.pageSize) cfg.blockSize pl, lpa, true, true, c⟩ := by
  rw [wbState, cwb_stage_fields cfg fl buf lpa pp t c ac ad pl ha hb hne]

theorem wbOps_stage (cfg : Cfg) (s : St) (ac ad : Nat) (pl : List Nat)
    (ha : ac = cfg.blockSize / 4 + 1) (hb : cfg.appStart ≤ ad)
    (hne : ad % cfg.pageSize + cfg.blockSize ≠ cfg.pageSize) :
    wbOps cfg s ⟨ac, ad, pl⟩ = [] := by
  simp only [wbOps, command_write_block]
  rw [if_neg (fun h => h ha), if_neg (by omega), if_neg hne]

theorem wbOps_commit (cfg : Cfg) (s : St) (ac ad : Nat) (pl : List Nat)
    (ha : ac = cfg.blockSize / 4 + 1) (hb : cfg.appStart ≤ ad)
    (heq : ad % cfg.pageSize + cfg.blockSize = cfg.pageSize) :
    wbOps cfg s ⟨ac, ad, pl⟩ =
      [FlashOp.writePage (ad - ad % cfg.pageSize)
        ((stageBlock s.pageBuffer (ad % cfg.pageSize) cfg.blockSize pl).take cfg.pageSize)] := by
  simp only [wbOps, command_write_block]
  rw [if_neg (fun h => h ha), if_neg (by omega), if_pos heq]
  simp [write_page]

theorem wbState_commit (cfg : Cfg) (s : St) (ac ad : Nat) (pl : List Nat)
    (ha : ac = cfg.blockSize / 4 + 1) (hb : cfg.appStart ≤ ad)
    (heq : ad % cfg.pageSize + cfg.blockSize = cfg.pageSize) :
    (wbState cfg s ⟨ac, ad, pl⟩).pagePending = false
      ∧ (wbState cfg s ⟨ac, ad, pl⟩).pageBuffer
          = List.replicate s.pageBuffer.length FILL := by
  simp only [wbState, command_write_block]
  rw [if_neg (fun h => h ha), if_neg (by omega), if_pos heq]
  simp [write_page, stageBlock_length]

end Canboot

namespace Canboot

theorem full_page_scenario (s : St) (d1 d2 d3 d4 : List Nat)
    (hs : s.pageBuffer.length = 256)
    (h1 : d1.length = 64) (h2 : d2.length = 64) (h3 : d3.length = 64) (h4 : d4.length = 64) :
    wbOps cfg0 s { argCount := 17, address := 0x8000, payload := d1 } = []
      ∧ wbOps cfg0 (wbState cfg0 s { argCount := 17, address := 0x8000, payload := d1 })
          { argCount := 17, address := 0x8040, payload := d2 } = []
      ∧ wbOps cfg0
          (wbState cfg0 (wbState cfg0 s { argCount := 17, address := 0x8000, payload := d1 })
            { argCount := 17, address := 0x8040, payload := d2 })
          { argCount := 17, address := 0x8080, payload := d3 } = []
      ∧ wbOps cfg0
          (wbState cfg0
            (wbState cfg0 (wbState cfg0 s { argCount := 17, address := 0x8000, payload := d1 })
              { argCount := 17, address := 0x8040, payload := d2 })
            { argCount := 17, address := 0x8080, payload := d3 })
          { argCount := 17, address := 0x80C0, payload := d4 }
          = [FlashOp.writePage 0x8000 (d1 ++ d2 ++ d3 ++ d4)]
      ∧ (wbState cfg0
          (wbState cfg0
            (wbState cfg0 (wbState cfg0 s { argCount := 17, address := 0x8000, payload := d1 })
              { argCount := 17, address := 0x8040, payload := d2 })
            { argCount := 17, address := 0x8080, payload := d3 })
          { argCount := 17, address := 0x80C0, payload := d4 }).pagePending = false
      ∧ (wbState cfg0
          (wbState cfg0
            (wbState cfg0 (wbState cfg0 s { argCount := 17, address := 0x8000, payload := d1 })
              { argCount := 17, address := 0x8040, payload := d2 })
            { argCount := 17, address := 0x8080, payload := d3 })
          { argCount := 17, address := 0x80C0, payload := d4 }).pageBuffer
          = List.replicate 256 FILL := by
  obtain ⟨fl, buf, lpa, pp, t, c⟩ := s
  simp only at hs
  have E1 := wbState_stage_fields cfg0 fl buf lpa pp t c 17 0x8000 d1
    (by decide) (by decide) (by decide)
  have E2 := wbState_stage_fields cfg0 fl
    (stageBlock buf (0x8000 % cfg0.pageSize) cfg0.blockSize d1) lpa true true c
    17 0x8040 d2 (by decide) (by decide) (by decide)
  have E3 := wbState_stage_fields cfg0 fl
    (stageBlock (stageBlock buf (0x8000 % cfg0.pageSize) cfg0.blockSize d1)
      (0x8040 % cfg0.pageSize) cfg0.blockSize d2) lpa true true c
    17 0x8080 d3 (by decide) (by decide) (by decide)
  rw [E1, E2, E3]
  have hb1 : stageBlock buf (0x8000 % cfg0.pageSize) cfg0.blockSize d1
      = d1 ++ buf.drop 64 := by
    show stageBlock buf 0 64 d1 = _
    rw [stageBlock_eq_append _ _ _ _ (by omega) h1]
    simp
  have hb2 : stageBlock (d1 ++ buf.drop 64) (0x8040 % cfg0.pageSize) cfg0.blockSize d2
      = d1 ++ d2 ++ (buf.drop 64).drop 64 := by
    show stageBlock _ 64 64 d2 = _
    exact stageBlock_append_block d1 (buf.drop 64) d2 64 64 h1 h2 (by simp [hs])
  have hb3 : stageBlock (d1 ++ d2 ++ (buf.drop 64).drop 64)
        (0x8080 % cfg0.pageSize) cfg0.blockSize d3
      = d1 ++ d2 ++ d3 ++ ((buf.drop 64).drop 64).drop 64 := by
    show stageBlock _ 128 64 d3 = _
    exact stageBlock_append_block (d1 ++ d2) ((buf.drop 64).drop 64) d3 128 64
      (by simp [h1, h2]) h3 (by simp [hs])
  rw [hb1, hb2, hb3]
  have hy : (((buf.drop 64).drop 64).drop 64).drop 64 = [] :=
    List.length_eq_zero.mp (by simp [hs])
  have hb4 : stageBlock (d1 ++ d2 ++ d3 ++ ((buf.drop 64).drop 64).drop 64)
        ((0x80C0 : Nat) % cfg0.pageSize) cfg0.blockSize d4
      = d1 ++ d2 ++ d3 ++ d4 := by
    show stageBlock _ 192 64 d4 = _
    rw [stageBlock_append_block (d1 ++ d2 ++ d3) (((buf.drop 64).drop 64).drop 64) d4 192 64
      (by simp [h1, h2, h3]) h4 (by simp [hs]), hy, List.append_nil]
  refine ⟨wbOps_stage _ _ _ _ _ (by decide) (by decide) (by decide),
          wbOps_stage _ _ _ _ _ (by decide) (by decide) (by decide),
          wbOps_stage _ _ _ _ _ (by decide) (by decide) (by decide), ?_, ?_, ?_⟩
  · rw [wbOps_commit cfg0 _ 17 0x80C0 d4 (by decide) (by decide) (by decide)]
    simp only [hb4]
    rw [List.take_of_length_le (by simp [h1, h2, h3, h4]; decide)]
    rw [(show (32960 : Nat) - 32960 % cfg0.pageSize = 32768 by decide)]
  · exact (wbState_commit cfg0 _ 17 0x80C0 d4 (by decide) (by decide) (by decide)).1
  · rw [(wbState_commit cfg0 _ 17 0x80C0 d4 (by decide) (by decide) (by decide)).2]
    congr 1
    simp [h1, h2, h3, hs]

end Canboot

namespace Canboot

/-- Claim C5: a write that exactly fills the page (`offset + block_size =
page_size`) immediately commits the page at `address - offset`, resetting the
buffer to the fill value and clearing `page_pending`; and in the scenario with
application start `0x8000`, block size 64 and page size 256, four consecutive
write-blocks at `0x8000`, `0x8040`, `0x8080`, `0x80C0` make exactly one flash
commit, during the fourth call, at page base `0x8000`, containing the
concatenation of the four payloads. -/
theorem full_page_write_commits_once :
    (∀ (cfg : Cfg) (s : St) (req : WBReq),
        req.argCount = cfg.blockSize / 4 + 1 → cfg.appStart ≤ req.address →
        req.address % cfg.pageSize + cfg.blockSize = cfg.pageSize →
        (command_write_block cfg s req).2.1 =
            [FlashOp.writePage (req.address - req.address % cfg.pageSize)
              ((stageBlock s.pageBuffer (req.address % cfg.pageSize) cfg.blockSize
                req.payload).take cfg.pageSize)]
          ∧ (command_write_block cfg s req).1.pageBuffer
              = List.replicate s.pageBuffer.length FILL
          ∧ (command_write_block cfg s req).1.pagePending = false)
    ∧ (∀ (s : St) (d1 d2 d3 d4 : List Nat),
        s.pageBuffer.length = 256 →
        d1.length = 64 → d2.length = 64 → d3.length = 64 → d4.length = 64 →
        wbOps cfg0 s { argCount := 17, address := 0x8000, payload := d1 } = []
          ∧ wbOps cfg0 (wbState cfg0 s { argCount := 17, address := 0x8000, payload := d1 })
              { argCount := 17, address := 0x8040, payload := d2 } = []
          ∧ wbOps cfg0
              (wbState cfg0 (wbState cfg0 s { argCount := 17, address := 0x8000, payload := d1 })
                { argCount := 17, address := 0x8040, payload := d2 })
              { argCount := 17, address := 0x8080, payload := d3 } = []
          ∧ wbOps cfg0
              (wbState cfg0
                (wbState cfg0 (wbState cfg0 s { argCount := 17, address := 0x8000, payload := d1 })
                  { argCount := 17, address := 0x8040, payload := d2 })
                { argCount := 17, address := 0x8080, payload := d3 })
              { argCount := 17, address := 0x80C0, payload := d4 }
              = [FlashOp.writePage 0x8000 (d1 ++ d2 ++ d3 ++ d4)]
          ∧ (wbState cfg0
              (wbState cfg0
                (wbState cfg0 (wbState cfg0 s { argCount := 17, address := 0x8000, payload := d1 })
                  { argCount := 17, address := 0x8040, payload := d2 })
                { argCount := 17, address := 0x8080, payload := d3 })
              { argCount := 17, address := 0x80C0, payload := d4 }).pagePending = false
          ∧ (wbState cfg0
              (wbState cfg0
                (wbState cfg0 (wbState cfg0 s { argCount := 17, address := 0x8000, payload := d1 })
                  { argCount := 17, address := 0x8040, payload := d2 })
                { argCount := 17, address := 0x8080, payload := d3 })
              { argCount := 17, address := 0x80C0, payload := d4 }).pageBuffer
              = List.replicate 256 FILL) := by
  constructor
  · intro cfg s req ha hb heq
    rw [command_write_block_commit cfg s req ha hb heq]
    exact ⟨rfl, rfl, rfl⟩
  · intro s d1 d2 d3 d4 hs h1 h2 h3 h4
    exact full_page_scenario s d1 d2 d3 d4 hs h1 h2 h3 h4

end Canboot

namespace Canboot

set_option maxRecDepth 40000 in
/-- Closed witness for `full_page_write_commits_once`: the general commit rule
at the boundary request `reqC`, and the four-write scenario with payloads
`replicate 64 1` … `replicate 64 4` from the startup state. -/
theorem full_page_write_commits_once_witness :
    ((command_write_block cfg0 st0 reqC).2.1 =
        [FlashOp.writePage (reqC.address - reqC.address % cfg0.pageSize)
          ((stageBlock st0.pageBuffer (reqC.address % cfg0.pageSize) cfg0.blockSize
            reqC.payload).take cfg0.pageSize)]
      ∧ (command_write_block cfg0 st0 reqC).1.pageBuffer
          = List.replicate st0.pageBuffer.length FILL
      ∧ (command_write_block cfg0 st0 reqC).1.pagePending = false)
    ∧ (wbOps cfg0 st0 { argCount := 17, address := 0x8000, payload := List.replicate 64 1 } = []
      ∧ wbOps cfg0
          (wbState cfg0 st0 { argCount := 17, address := 0x8000, payload := List.replicate 64 1 })
          { argCount := 17, address := 0x8040, payload := List.replicate 64 2 } = []
      ∧ wbOps cfg0
          (wbState cfg0
            (wbState cfg0 st0 { argCount := 17, address := 0x8000, payload := List.replicate 64 1 })
            { argCount := 17, address := 0x8040, payload := List.replicate 64 2 })
          { argCount := 17, address := 0x8080, payload := List.replicate 64 3 } = []
      ∧ wbOps cfg0
          (wbState cfg0
            (wbState cfg0
              (wbState cfg0 st0 { argCount := 17, address := 0x8000, payload := List.replicate 64 1 })
              { argCount := 17, address := 0x8040, payload := List.replicate 64 2 })
            { argCount := 17, address := 0x8080, payload := List.replicate 64 3 })
          { argCount := 17, address := 0x80C0, payload := List.replicate 64 4 }
          = [FlashOp.writePage 0x8000
              (List.replicate 64 1 ++ List.replicate 64 2 ++ List.replicate 64 3
                ++ List.replicate 64 4)]
      ∧ (wbState cfg0
          (wbState cfg0
            (wbState cfg0
              (wbState cfg0 st0 { argCount := 17, address := 0x8000, payload := List.replicate 64 1 })
              { argCount := 17, address := 0x8040, payload := List.replicate 64 2 })
            { argCount := 17, address := 0x8080, payload := List.replicate 64 3 })
          { argCount := 17, address := 0x80C0, payload := List.replicate 64 4 }).pagePending = false
      ∧ (wbState cfg0
          (wbState cfg0
            (wbState cfg0
              (wbState cfg0 st0 { argCount := 17, address := 0x8000, payload := List.replicate 64 1 })
              { argCount := 17, address := 0x8040, payload := List.replicate 64 2 })
            { argCount := 17, address := 0x8080, payload := List.replicate 64 3 })
          { argCount := 17, address := 0x80C0, payload := List.replicate 64 4 }).pageBuffer
          = List.replicate 256 FILL) :=
  ⟨full_page_write_commits_once.1 cfg0 st0 reqC (by decide) (by decide) (by decide),
   full_page_write_commits_once.2 st0 (List.replicate 64 1) (List.replicate 64 2)
     (List.replicate 64 3) (List.replicate 64 4) (by decide) rfl rfl rfl rfl⟩

set_option maxRecDepth 40000 in
/-- Claim C1: the spec's scenario says a single write-block at `0x8000` with 64
bytes followed by end-of-file commits once at `0x8000`, padded with the fill
value, with page count 1.  The code instead flushes the pending page at
`last_page_address + page_size = 0 + 0x100 = 0x100`, pads with the stale bytes
already in the buffer (zeros at startup), and, because
`last_page_address = 0x100` lies below `application_start`, reports the
wrapped 32-bit page count `16777090`. -/
theorem single_write_then_eof_flushes_at_0x100 :
    (command_write_block cfg0 st0 reqA).2.1 = []
      ∧ (command_eof cfg0 (command_write_block cfg0 st0 reqA).1).2.1
          = [FlashOp.writePage 0x100 (List.replicate 64 0xAB ++ List.replicate 192 0),
             FlashOp.finalize]
      ∧ (command_eof cfg0 (command_write_block cfg0 st0 reqA).1).2.2
          = Ack.ackRxEof 16777090 := by
  decide

/-- Claim C10: no handler inspects session state — connect, read-block,
complete and end-of-file always produce their normal acknowledgement in every
state, and a write-block that passes its request-only validation is
acknowledged in every state; an end-of-file with no prior write performs no
page commit but still calls the flash finalize hook, and reports the count
computed from the sentinel `last_page_address = 0` (`16777089` for
application start `0x8000`, page size 256). -/
theorem handlers_ignore_session_state :
    (∀ (cfg : Cfg) (s : St), command_connect cfg s
        = (s, Ack.ackConnect cfg.protoVersion cfg.appStart cfg.blockSize))
    ∧ (∀ (cfg : Cfg) (s : St) (a : Nat), (command_read_block cfg s a).2
        = Ack.ackReqBlock a (flash_read_block cfg s.flash a))
    ∧ (∀ (cfg : Cfg) (s : St) (req : WBReq),
        req.argCount = cfg.blockSize / 4 + 1 → cfg.appStart ≤ req.address →
        (command_write_block cfg s req).2.2 = Ack.ackRxBlock req.address)
    ∧ (∀ (cfg : Cfg) (s : St), ∃ n, (command_eof cfg s).2.2 = Ack.ackRxEof n
        ∧ FlashOp.finalize ∈ (command_eof cfg s).2.1)
    ∧ (∀ s : St, (command_complete s).2 = Ack.ackComplete)
    ∧ ((command_eof cfg0 st0).2.1 = [FlashOp.finalize]
        ∧ (command_eof cfg0 st0).2.2 = Ack.ackRxEof 16777089) := by
  refine ⟨fun cfg s => rfl, fun cfg s a => rfl, ?_, ?_, fun s => rfl, by decide⟩
  · intro cfg s req ha hb
    simp only [command_write_block]
    rw [if_neg (fun h => h ha), if_neg (by omega)]
    split <;> rfl
  · intro cfg s
    refine ⟨_, rfl, ?_⟩
    by_cases hp : s.pagePending <;> simp [command_eof, hp]

/-- Closed witness for `handlers_ignore_session_state` at the startup state:
a valid write-block is acknowledged and the end-of-file handler acknowledges
and finalizes. -/
theorem handlers_ignore_session_state_witness :
    (command_write_block cfg0 st0 reqA).2.2 = Ack.ackRxBlock reqA.address
      ∧ (∃ n, (command_eof cfg0 st0).2.2 = Ack.ackRxEof n
          ∧ FlashOp.finalize ∈ (command_eof cfg0 st0).2.1) :=
  ⟨handlers_ignore_session_state.2.2.1 cfg0 st0 reqA (by decide) (by decide),
   handlers_ignore_session_state.2.2.2.1 cfg0 st0⟩

/-- Claim C6: at startup, a persisted bootup code equal to `REQUEST_SIG` makes
the boot decision enter update mode and clear the code to 0; and if every byte
of the application's first block reads the fill value, update mode is entered
whatever the code or the button state. -/
theorem boot_signal_and_missing_app_enter_update (cfg : Cfg) (env : BootEnv) (s : St) :
    (env.bootupCode = REQUEST_SIG →
      (boot_decision cfg env s).enterUpdateMode = true
        ∧ (boot_decision cfg env s).bootupCodeAfter = 0)
    ∧ ((∀ b ∈ flash_read_block cfg s.flash cfg.appStart, b = FILL) →
      (boot_decision cfg env s).enterUpdateMode = true) := by
  constructor
  · intro h
    simp [boot_decision, h]
  · intro h
    by_cases hsig : env.bootupCode = REQUEST_SIG
    · simp [boot_decision, hsig]
    · have hany : (flash_read_block cfg s.flash cfg.appStart).any
          (fun b => b != FILL) = false := by
        rw [List.any_eq_false]
        intro x hx
        simp [h x hx]
      simp [boot_decision, hsig, check_application_code, hany]

/-- Closed witness for `boot_signal_and_missing_app_enter_update` over erased
flash with the request code set. -/
theorem boot_signal_and_missing_app_enter_update_witness :
    ((boot_decision cfg0 envSig stFF).enterUpdateMode = true
      ∧ (boot_decision cfg0 envSig stFF).bootupCodeAfter = 0)
    ∧ (boot_decision cfg0 envSig stFF).enterUpdateMode = true :=
  ⟨(boot_signal_and_missing_app_enter_update cfg0 envSig stFF).1 rfl,
   (boot_signal_and_missing_app_enter_update cfg0 envSig stFF).2 (by decide)⟩

set_option maxRecDepth 40000 in
/-- Claim C9: the missing-application check reads the application's first
block into `page_buffer` — after the boot decision the buffer is either
untouched (request-code short circuit) or holds the application's first block;
consequently a partial first page flushed at end-of-file is padded with those
stale bytes (here the `0x42` application bytes and startup zeros), not with
the fill value `0xFF`. -/
theorem check_app_scratches_page_buffer :
    (∀ (cfg : Cfg) (env : BootEnv) (s : St), env.bootupCode = REQUEST_SIG →
        (boot_decision cfg env s).st = s)
    ∧ (∀ (cfg : Cfg) (env : BootEnv) (s : St), env.bootupCode ≠ REQUEST_SIG →
        (boot_decision cfg env s).st.pageBuffer
          = stageBlock s.pageBuffer 0 cfg.blockSize
              (flash_read_block cfg s.flash cfg.appStart))
    ∧ ((boot_decision cfgB envB (initSt fA 256)).enterUpdateMode = true
        ∧ (command_eof cfg0
            (wbState cfg0 (boot_decision cfgB envB (initSt fA 256)).st
              { argCount := 17, address := 0x8040, payload := List.replicate 64 7 })).2.1
          = [FlashOp.writePage 0x100
              (List.replicate 64 0x42 ++ List.replicate 64 7 ++ List.replicate 128 0),
             FlashOp.finalize]) := by
  refine ⟨?_, ?_, by decide⟩
  · intro cfg env s h
    simp [boot_decision, h]
  · intro cfg env s h
    simp only [boot_decision, if_neg h]
    split <;> simp [check_application_code]

/-- Closed witness for `check_app_scratches_page_buffer`: the request-code
path leaves the startup state untouched, and the no-request path stages the
application's first block into the buffer. -/
theorem check_app_scratches_page_buffer_witness :
    (boot_decision cfg0 envSig st0).st = st0
      ∧ (boot_decision cfgB envB st0).st.pageBuffer
          = stageBlock st0.pageBuffer 0 cfgB.blockSize
              (flash_read_block cfgB st0.flash cfgB.appStart) :=
  ⟨check_app_scratches_page_buffer.1 cfg0 envSig st0 rfl,
   check_app_scratches_page_buffer.2.1 cfgB envB st0 (by decide)⟩

end Canboot

namespace Canboot

theorem eofCountFormula (A P L : Nat) (hP : 0 < P) (hA : 0 < A)
    (h1 : A ≤ L) (h2 : L < U32) :
    (((U32 + L - A) % U32) / P + 1) % U32 = (L - A) / P + 1 := by
  have hU : U32 = 4294967296 := by norm_num [U32]
  have e1 : (U32 + L - A) % U32 = L - A := by
    rw [hU]
    omega
  rw [e1]
  have hd : (L - A) / P ≤ L - A := Nat.div_le_self _ _
  have hlt : (L - A) / P + 1 < U32 := by
    rw [hU]
    omega
  exact Nat.mod_eq_of_lt hlt

theorem command_eof_ack (cfg : Cfg) (s : St) :
    (command_eof cfg s).2.2 =
      Ack.ackRxEof ((((U32 + eofFinalAddress cfg s - cfg.appStart) % U32)
        / cfg.pageSize + 1) % U32) := by
  by_cases hp : s.pagePending <;>
    simp [command_eof, write_page, eofFinalAddress, hp]

/-- Claim C7: the end-of-file acknowledgement carries
`(last_page_address - application_start) / page_size + 1`, evaluated after the
pending-page flush, in exact 32-bit unsigned arithmetic (the hypotheses rule
out wraparound), and for a contiguous single-session write starting at
`application_start` (page size dividing the distance) this equals
`ceil((last committed address - application_start + page_size) / page_size)`. -/
theorem eof_reports_page_count (cfg : Cfg) (s : St)
    (hP : 0 < cfg.pageSize) (hA : 0 < cfg.appStart)
    (hL1 : cfg.appStart ≤ eofFinalAddress cfg s)
    (hL2 : eofFinalAddress cfg s < U32)
    (hdvd : cfg.pageSize ∣ (eofFinalAddress cfg s - cfg.appStart)) :
    (command_eof cfg s).2.2
        = Ack.ackRxEof ((eofFinalAddress cfg s - cfg.appStart) / cfg.pageSize + 1)
      ∧ (eofFinalAddress cfg s - cfg.appStart) / cfg.pageSize + 1
          = (eofFinalAddress cfg s - cfg.appStart + cfg.pageSize + (cfg.pageSize - 1))
              / cfg.pageSize := by
  constructor
  · rw [command_eof_ack cfg s,
      eofCountFormula cfg.appStart cfg.pageSize (eofFinalAddress cfg s) hP hA hL1 hL2]
  · obtain ⟨q, hq⟩ := hdvd
    rw [hq]
    have hrw : cfg.pageSize * q + cfg.pageSize + (cfg.pageSize - 1)
        = cfg.pageSize * (q + 1) + (cfg.pageSize - 1) := by ring
    rw [hrw, Nat.mul_add_div hP, Nat.mul_div_cancel_left _ hP,
      Nat.div_eq_of_lt (by omega)]

/-- Closed witness for `eof_reports_page_count` at the state whose last
committed page is `0x8000`. -/
theorem eof_reports_page_count_witness :
    (command_eof cfg0 stW).2.2
        = Ack.ackRxEof ((eofFinalAddress cfg0 stW - cfg0.appStart) / cfg0.pageSize + 1)
      ∧ (eofFinalAddress cfg0 stW - cfg0.appStart) / cfg0.pageSize + 1
          = (eofFinalAddress cfg0 stW - cfg0.appStart + cfg0.pageSize + (cfg0.pageSize - 1))
              / cfg0.pageSize :=
  eof_reports_page_count cfg0 stW (by decide) (by decide) (by decide) (by decide) (by decide)

end Canboot

namespace Canboot

theorem read_staged_page (cfg : Cfg) (fl : Nat → Nat) (buf data : List Nat) (ad : Nat)
    (hlen : buf.length = cfg.pageSize)
    (hdata : data.length = cfg.blockSize)
    (hfit : ad % cfg.pageSize + cfg.blockSize ≤ cfg.pageSize) :
    flash_read_block cfg
      (writePageFlash fl (ad - ad % cfg.pageSize)
        ((stageBlock buf (ad % cfg.pageSize) cfg.blockSize data).take cfg.pageSize)
        cfg.pageSize) ad = data := by
  have hpos : ad % cfg.pageSize ≤ ad := Nat.mod_le _ _
  have hstlen : (stageBlock buf (ad % cfg.pageSize) cfg.blockSize data).length
      = cfg.pageSize := by
    rw [stageBlock_length, hlen]
  apply List.ext_getElem
  · simp [flash_read_block, hdata]
  · intro i h1 h2
    have hiB : i < cfg.blockSize := by
      simpa [flash_read_block] using h1
    simp only [flash_read_block, List.getElem_map, List.getElem_range, writePageFlash]
    rw [if_pos (by omega)]
    have hidx : ad + i - (ad - ad % cfg.pageSize) = ad % cfg.pageSize + i := by omega
    rw [hidx]
    rw [List.getD_eq_getElem _ _ (by simp [hstlen]; omega)]
    rw [List.getElem_take]
    rw [stageBlock_getElem]
    rw [if_pos (by omega)]
    have hsub : ad % cfg.pageSize + i - ad % cfg.pageSize = i := by omega
    rw [hsub, List.getD_eq_getElem _ _ (by omega)]

/-- Claim C8: after a validated block-aligned write-block at address `a`, a
read-block at `a` returns the written payload once the page containing `a`
has been committed — immediately when the write fills the page
(`offset + block_size = page_size`), and otherwise after the pending page is
committed at its base `a - a mod page_size`. -/
theorem write_then_read_roundtrip (cfg : Cfg) (s : St) (req : WBReq)
    (hlen : s.pageBuffer.length = cfg.pageSize)
    (ha : req.argCount = cfg.blockSize / 4 + 1)
    (hb : cfg.appStart ≤ req.address)
    (hd : req.payload.length = cfg.blockSize)
    (hfit : req.address % cfg.pageSize + cfg.blockSize ≤ cfg.pageSize) :
    (req.address % cfg.pageSize + cfg.blockSize = cfg.pageSize →
      (command_read_block cfg (wbState cfg s req) req.address).2
        = Ack.ackReqBlock req.address req.payload)
    ∧ (req.address % cfg.pageSize + cfg.blockSize < cfg.pageSize →
      (command_read_block cfg
          (write_page cfg (wbState cfg s req)
            (req.address - req.address % cfg.pageSize)).1 req.address).2
        = Ack.ackReqBlock req.address req.payload) := by
  constructor
  · intro heq
    rw [wbState, command_write_block_commit cfg s req ha hb heq]
    simp only [command_read_block]
    congr 1
    exact read_staged_page cfg s.flash s.pageBuffer req.payload req.address hlen hd hfit
  · intro hlt
    rw [wbState, command_write_block_stage cfg s req ha hb (by omega)]
    simp only [command_read_block, write_page]
    congr 1
    exact read_staged_page cfg s.flash s.pageBuffer req.payload req.address hlen hd hfit

set_option maxRecDepth 40000 in
/-- Closed witness for `write_then_read_roundtrip` at a write of 64 bytes of
`9` to `0x8040` from the startup state. -/
theorem write_then_read_roundtrip_witness :
    ((0x8040 : Nat) % cfg0.pageSize + cfg0.blockSize = cfg0.pageSize →
      (command_read_block cfg0
          (wbState cfg0 st0 { argCount := 17, address := 0x8040, payload := List.replicate 64 9 })
          (0x8040 : Nat)).2
        = Ack.ackReqBlock 0x8040 (List.replicate 64 9))
    ∧ ((0x8040 : Nat) % cfg0.pageSize + cfg0.blockSize < cfg0.pageSize →
      (command_read_block cfg0
          (write_page cfg0
            (wbState cfg0 st0 { argCount := 17, address := 0x8040, payload := List.replicate 64 9 })
            ((0x8040 : Nat) - (0x8040 : Nat) % cfg0.pageSize)).1 (0x8040 : Nat)).2
        = Ack.ackReqBlock 0x8040 (List.replicate 64 9)) :=
  write_then_read_roundtrip cfg0 st0
    { argCount := 17, address := 0x8040, payload := List.replicate 64 9 }
    (by decide) (by decide) (by decide) (by decide) (by decide)

end Canboot
